import Mathlib

/-!
Verification of the service lifecycle manager of cerise-manager
(src/cerise_manager/service.py) against its specification.

The Docker runtime is the external collaborator (spec section 6): it is
modelled as an explicit state `DockerState` holding the containers by name,
the host ports currently bound, and an optional daemon failure mode used to
model "any other runtime error".  Every Python function of service.py is
embedded as a Lean function threading this state and returning `Except`
(a raised exception becomes `Except.error`).
-/

namespace CeriseManager

/-- `listStartsWith pat l` is true when `pat` is an initial segment of `l`. -/
def listStartsWith : List Char → List Char → Bool
  | [], _ => true
  | _ :: _, [] => false
  | p :: ps, c :: cs => p == c && listStartsWith ps cs

/-- `listContains pat l` is true when `pat` occurs as a contiguous segment
of `l`. -/
def listContains (pat : List Char) : List Char → Bool
  | [] => listStartsWith pat []
  | c :: cs => listStartsWith pat (c :: cs) || listContains pat cs

/-- Substring test: `pat` occurs somewhere in `s`.  Embeds Python's
`pat in s` on error explanations. -/
def occursIn (pat s : String) : Bool :=
  listContains pat.toList s.toList

/-- Errors of the docker runtime client, as service.py observes them:
`docker.errors.NotFound` and `docker.errors.APIError` with its
human-readable `explanation` string. -/
inductive DockerError where
  | notFound : DockerError
  | apiError (explanation : String) : DockerError
deriving Repr, DecidableEq

/-- Everything a lifecycle call can raise: the three domain errors of
cerise_manager.errors, or an untranslated docker runtime error. -/
inductive PyError where
  | serviceAlreadyExists : PyError
  | serviceNotFound : PyError
  | portNotAvailable : PyError
  | docker (e : DockerError) : PyError
deriving Repr, DecidableEq

/-- One container in the runtime: its current status string, the host port
its service port was bound to, the image it was launched from, and the
environment it was launched with. -/
structure Container where
  status : String
  hostPort : Nat
  image : String
  env : List (String × String)
deriving Repr, DecidableEq

/-- The container runtime's state: containers by (unique) name, host ports
currently bound, and an optional daemon failure message.  When
`daemonError = some msg`, every runtime call fails with an `APIError`
carrying `msg`, modelling "any other runtime failure" of the spec. -/
structure DockerState where
  containers : List (String × Container)
  boundPorts : List Nat
  daemonError : Option String
deriving Repr, DecidableEq

/-- `dc.containers.get(name)`: the container, or `NotFound`, or the daemon's
failure. -/
def containersGet (st : DockerState) (name : String) :
    Except DockerError Container :=
  match st.daemonError with
  | some msg => .error (.apiError msg)
  | none =>
    match st.containers.lookup name with
    | some c => .ok c
    | none => .error .notFound

/-- The explanation text docker reports for a container name conflict
(spec section 6: name and port conflicts are distinguishable via the
reported error text). -/
def nameConflictMsg : String :=
  "Conflict. The container name is already in use by another container"

/-- The explanation text docker reports when the requested host port is
already bound. -/
def portConflictMsg : String :=
  "Bind for 127.0.0.1 failed: port is already allocated"

/-- `dc.containers.run(image, name=..., ports=..., environment=...,
detach=True)`.  Docker rejects a duplicate container name with the name
conflict message, and a host port that is already bound with the port
conflict message; otherwise the container is created running and the port
becomes bound. -/
def containersRun (st : DockerState) (image name : String) (port : Nat)
    (env : List (String × String)) : Except DockerError DockerState :=
  match st.daemonError with
  | some msg => .error (.apiError msg)
  | none =>
    if (st.containers.lookup name).isSome then
      .error (.apiError nameConflictMsg)
    else if st.boundPorts.contains port then
      .error (.apiError portConflictMsg)
    else
      .ok { st with
            containers :=
              (name, ⟨"running", port, image, env⟩) :: st.containers,
            boundPorts := port :: st.boundPorts }

/-- `container.stop()` for a container looked up by `name`: its status
becomes "exited". -/
def containerStop (st : DockerState) (name : String) : DockerState :=
  { st with
    containers := st.containers.map
      (fun p => if p.1 = name then (p.1, { p.2 with status := "exited" }) else p) }

/-- `container.start()` for a container looked up by `name`: its status
becomes "running". -/
def containerStart (st : DockerState) (name : String) : DockerState :=
  { st with
    containers := st.containers.map
      (fun p => if p.1 = name then (p.1, { p.2 with status := "running" }) else p) }

/-- `container.remove()` for a container looked up by `name`: the container
disappears and its host port is freed. -/
def containerRemove (st : DockerState) (name : String) : DockerState :=
  { st with
    containers := st.containers.filter (fun p => p.1 ≠ name),
    boundPorts :=
      match st.containers.lookup name with
      | some c => st.boundPorts.erase c.hostPort
      | none => st.boundPorts }

/-- The ManagedService handle: just the stored name and port
(service.py lines 245-263). -/
structure ManagedService where
  name : String
  port : Nat
deriving Repr, DecidableEq

/-- The environment dict built by create_service (service.py lines 41-50):
always CERISE_STORE_LOCATION_CLIENT; an empty user_name is normalised to
None; CERISE_USERNAME if user_name is not None; CERISE_PASSWORD if password
is not None (no empty-string normalisation for the password). -/
def buildEnvironment (port : Nat) (user_name password : Option String) :
    List (String × String) :=
  let environment :=
    [("CERISE_STORE_LOCATION_CLIENT",
      "http://localhost:" ++ toString port ++ "/files")]
  let user_name := if user_name = some "" then none else user_name
  let environment :=
    match user_name with
    | some u => environment ++ [("CERISE_USERNAME", u)]
    | none => environment
  match password with
  | some p => environment ++ [("CERISE_PASSWORD", p)]
  | none => environment

/-- create_service (service.py lines 16-71): run the container; on APIError
classify the explanation by substring — port conflicts to PortNotAvailable,
name conflicts to ServiceAlreadyExists — and re-raise anything else
unwrapped; on success return the new state and a fresh handle. -/
def create_service (st : DockerState) (srv_name : String) (port : Nat)
    (srv_type : String) (user_name password : Option String) :
    Except PyError (DockerState × ManagedService) :=
  let environment := buildEnvironment port user_name password
  match containersRun st srv_type srv_name port environment with
  | .error (.apiError e) =>
    if occursIn "address already in use" e then
      .error .portNotAvailable
    else if occursIn "port is already allocated" e then
      .error .portNotAvailable
    else if occursIn "Conflict. The container name" e then
      .error .serviceAlreadyExists
    else
      .error (.docker (.apiError e))
  | .error e => .error (.docker e)
  | .ok st2 => .ok (st2, ⟨srv_name, port⟩)

/-- destroy_service (service.py lines 73-94): get the container, stop it,
remove it; NotFound becomes ServiceNotFound. -/
def destroy_service (st : DockerState) (srv : ManagedService) :
    Except PyError DockerState :=
  match containersGet st srv.name with
  | .ok _ => .ok (containerRemove (containerStop st srv.name) srv.name)
  | .error .notFound => .error .serviceNotFound
  | .error e => .error (.docker e)

/-- service_exists (service.py lines 96-112): get the container and return
true; NotFound becomes false; other runtime errors propagate. -/
def service_exists (st : DockerState) (srv_name : String) :
    Except PyError Bool :=
  match containersGet st srv_name with
  | .ok _ => .ok true
  | .error .notFound => .ok false
  | .error e => .error (.docker e)

/-- get_service (service.py lines 114-131): raise ServiceNotFound if the
service does not exist, else return a handle carrying the caller-supplied
name and port. -/
def get_service (st : DockerState) (srv_name : String) (port : Nat) :
    Except PyError ManagedService :=
  match service_exists st srv_name with
  | .ok true => .ok ⟨srv_name, port⟩
  | .ok false => .error .serviceNotFound
  | .error e => .error e

/-- require_service (service.py lines 133-162): try create_service; on
ServiceAlreadyExists fall back to get_service; everything else propagates. -/
def require_service (st : DockerState) (srv_name : String) (port : Nat)
    (srv_type : String) (user_name password : Option String) :
    Except PyError (DockerState × ManagedService) :=
  match create_service st srv_name port srv_type user_name password with
  | .error .serviceAlreadyExists =>
    match get_service st srv_name port with
    | .ok srv => .ok (st, srv)
    | .error e => .error e
  | r => r

/-- service_is_running (service.py lines 167-176): get the container —
with no exception handler, so NotFound propagates — and compare its status
to "running". -/
def service_is_running (st : DockerState) (srv : ManagedService) :
    Except PyError Bool :=
  match containersGet st srv.name with
  | .ok c => .ok (c.status == "running")
  | .error e => .error (.docker e)

/-- start_service (service.py lines 178-188): get the container — no
exception handler, NotFound propagates — and start it. -/
def start_service (st : DockerState) (srv : ManagedService) :
    Except PyError DockerState :=
  match containersGet st srv.name with
  | .ok _ => .ok (containerStart st srv.name)
  | .error e => .error (.docker e)

/-- stop_service (service.py lines 190-200): get the container — no
exception handler, NotFound propagates — and stop it. -/
def stop_service (st : DockerState) (srv : ManagedService) :
    Except PyError DockerState :=
  match containersGet st srv.name with
  | .ok _ => .ok (containerStop st srv.name)
  | .error e => .error (.docker e)

/-- The serialised form: a mapping with exactly the two entries name and
port (service.py lines 218-221). -/
structure ServiceDict where
  name : String
  port : Nat
deriving Repr, DecidableEq

/-- service_to_dict (service.py lines 205-221): a pure function of the
handle's stored fields; it takes no runtime client and so cannot contact or
change the runtime. -/
def service_to_dict (srv : ManagedService) : ServiceDict :=
  ⟨srv.name, srv.port⟩

/-- service_from_dict (service.py lines 223-239): exactly
get_service(srv_dict.name, srv_dict.port). -/
def service_from_dict (st : DockerState) (srv_dict : ServiceDict) :
    Except PyError ManagedService :=
  get_service st srv_dict.name srv_dict.port

/-! Concrete runtime states used to instantiate the theorems. -/

/-- A running container on host port 29593. -/
def c0 : Container := ⟨"running", 29593, "mdstudio/cerise", []⟩

/-- A runtime with no containers. -/
def stEmpty : DockerState := ⟨[], [], none⟩

/-- A runtime with one running container named "svc" on port 29593. -/
def stOne : DockerState := ⟨[("svc", c0)], [29593], none⟩

/-- A runtime whose daemon fails every call with an unclassified error. -/
def stDown : DockerState := ⟨[], [], some "server error"⟩

/-! Facts about the classification substrings and the runtime messages. -/

theorem nameMsg_not_addr :
    occursIn "address already in use" nameConflictMsg = false := by decide

theorem nameMsg_not_port :
    occursIn "port is already allocated" nameConflictMsg = false := by decide

theorem nameMsg_conflict :
    occursIn "Conflict. The container name" nameConflictMsg = true := by decide

theorem portMsg_not_addr :
    occursIn "address already in use" portConflictMsg = false := by decide

theorem portMsg_port :
    occursIn "port is already allocated" portConflictMsg = true := by decide

/-! Evaluation lemmas for the embedded operations. -/

theorem containersGet_eval (st : DockerState) (n : String)
    (hd : st.daemonError = none) :
    containersGet st n =
      match st.containers.lookup n with
      | some c => .ok c
      | none => .error .notFound := by
  unfold containersGet
  rw [hd]

theorem create_service_conflict (st : DockerState) (n : String) (p : Nat)
    (img : String) (u pw : Option String) (hd : st.daemonError = none)
    (h : (st.containers.lookup n).isSome) :
    create_service st n p img u pw = .error .serviceAlreadyExists := by
  unfold create_service containersRun
  rw [hd]
  simp only [h, if_true]
  simp [nameMsg_not_addr, nameMsg_not_port, nameMsg_conflict]

theorem create_service_port_busy (st : DockerState) (n : String) (p : Nat)
    (img : String) (u pw : Option String) (hd : st.daemonError = none)
    (h : st.containers.lookup n = none)
    (hp : st.boundPorts.contains p = true) :
    create_service st n p img u pw = .error .portNotAvailable := by
  unfold create_service containersRun
  rw [hd]
  simp only [h, Option.isSome_none, Bool.false_eq_true, if_false, hp, if_true]
  simp [portMsg_not_addr, portMsg_port]

theorem create_service_ok (st : DockerState) (n : String) (p : Nat)
    (img : String) (u pw : Option String) (hd : st.daemonError = none)
    (h : st.containers.lookup n = none)
    (hp : st.boundPorts.contains p = false) :
    create_service st n p img u pw =
      .ok ({ st with
             containers :=
               (n, ⟨"running", p, img, buildEnvironment p u pw⟩)
                 :: st.containers,
             boundPorts := p :: st.boundPorts }, ⟨n, p⟩) := by
  have hp2 : ¬ p ∈ st.boundPorts := by simpa using hp
  unfold create_service containersRun
  rw [hd]
  simp [h, hp2]

theorem create_service_daemon (st : DockerState) (n : String) (p : Nat)
    (img : String) (u pw : Option String) (msg : String)
    (hd : st.daemonError = some msg)
    (h1 : occursIn "address already in use" msg = false)
    (h2 : occursIn "port is already allocated" msg = false)
    (h3 : occursIn "Conflict. The container name" msg = false) :
    create_service st n p img u pw = .error (.docker (.apiError msg)) := by
  unfold create_service containersRun
  rw [hd]
  simp [h1, h2, h3]

theorem service_exists_eval (st : DockerState) (n : String)
    (hd : st.daemonError = none) :
    service_exists st n = .ok (st.containers.lookup n).isSome := by
  unfold service_exists
  rw [containersGet_eval st n hd]
  cases st.containers.lookup n <;> simp

theorem get_service_eval (st : DockerState) (n : String) (p : Nat)
    (hd : st.daemonError = none) :
    get_service st n p =
      if (st.containers.lookup n).isSome then .ok ⟨n, p⟩
      else .error .serviceNotFound := by
  unfold get_service
  rw [service_exists_eval st n hd]
  cases h : (st.containers.lookup n).isSome <;> simp

theorem require_service_of_exists (st : DockerState) (n : String) (p : Nat)
    (img : String) (u pw : Option String) (hd : st.daemonError = none)
    (h : (st.containers.lookup n).isSome) :
    require_service st n p img u pw = .ok (st, ⟨n, p⟩) := by
  unfold require_service
  rw [create_service_conflict st n p img u pw hd h,
      get_service_eval st n p hd]
  simp [h]

theorem lookup_filter_ne (l : List (String × Container)) (n : String) :
    (l.filter (fun p => p.1 ≠ n)).lookup n = none := by
  induction l with
  | nil => rfl
  | cons head tl ih =>
    obtain ⟨k, v⟩ := head
    by_cases h : k = n
    · simpa [List.filter_cons, h] using ih
    · have hbeq : (n == k) = false := by simp [Ne.symm h]
      simp [List.filter_cons, h, List.lookup, hbeq]
      simpa using ih

/-! The claims. -/

/-- C9: `service_exists` is a pure existence check: with a healthy daemon it
returns true iff a container with the given name exists in the runtime and
never raises for "not found" (it returns false instead); any other runtime
error propagates unwrapped. -/
theorem C9_service_exists_pure_check (st : DockerState) (n : String) :
    (st.daemonError = none →
        service_exists st n = .ok (st.containers.lookup n).isSome) ∧
    (∀ msg, st.daemonError = some msg →
        service_exists st n = .error (.docker (.apiError msg))) := by
  constructor
  · exact service_exists_eval st n
  · intro msg hd
    unfold service_exists containersGet
    rw [hd]

/-- Witness for C9 at concrete states: an existing container yields true, an
absent one yields false, and a daemon failure propagates. -/
theorem C9_witness :
    service_exists stOne "svc" = .ok true ∧
    service_exists stEmpty "svc" = .ok false ∧
    service_exists stDown "svc" = .error (.docker (.apiError "server error")) :=
  ⟨(C9_service_exists_pure_check stOne "svc").1 rfl,
   (C9_service_exists_pure_check stEmpty "svc").1 rfl,
   (C9_service_exists_pure_check stDown "svc").2 "server error" rfl⟩

/-- C7: `get_service` returns a handle iff a container with the name exists,
raises ServiceNotFound otherwise, and on success carries exactly the
caller-supplied name and port, with no validation of the port against the
container's actual host port. -/
theorem C7_get_service_spec (st : DockerState) (n : String) (p : Nat)
    (hd : st.daemonError = none) :
    ((st.containers.lookup n).isSome → get_service st n p = .ok ⟨n, p⟩) ∧
    (st.containers.lookup n = none →
        get_service st n p = .error .serviceNotFound) ∧
    (∀ c, st.containers.lookup n = some c → c.hostPort ≠ p →
        get_service st n p = .ok ⟨n, p⟩) := by
  rw [get_service_eval st n p hd]
  refine ⟨fun h => by simp [h], fun h => by simp [h], fun c h _ => by simp [h]⟩

/-- Witness for C7: lookup of the existing "svc" succeeds even with a
mismatched caller-supplied port, and lookup of an absent name fails. -/
theorem C7_witness :
    get_service stOne "svc" 1 = .ok ⟨"svc", 1⟩ ∧
    get_service stEmpty "nope" 1 = .error .serviceNotFound :=
  ⟨(C7_get_service_spec stOne "svc" 1 rfl).2.2 c0 rfl (by decide),
   (C7_get_service_spec stEmpty "nope" 1 rfl).2.1 rfl⟩

/-- C4 counterexample: `service_is_running` on a handle whose container does
not exist does NOT return false — the runtime's NotFound error propagates,
because service.py lines 174-176 call containers.get with no exception
handler. -/
theorem C4_counterexample :
    stEmpty.containers.lookup "svc" = none ∧
    service_is_running stEmpty ⟨"svc", 29593⟩ = .error (.docker .notFound) ∧
    service_is_running stEmpty ⟨"svc", 29593⟩ ≠ .ok false := by
  refine ⟨rfl, rfl, fun h => ?_⟩
  rw [show service_is_running stEmpty ⟨"svc", 29593⟩
        = .error (.docker .notFound) from rfl] at h
  exact Except.noConfusion h

/-- C4 (amended): for a handle whose container does not exist,
`service_is_running` raises the raw runtime NotFound error (the
"not found → false" conversion is only in `service_exists`); for an
existing container it returns true iff the status equals "running", and any
other status yields false. -/
theorem C4_is_running_spec (st : DockerState) (srv : ManagedService)
    (hd : st.daemonError = none) :
    (st.containers.lookup srv.name = none →
        service_is_running st srv = .error (.docker .notFound)) ∧
    (∀ c, st.containers.lookup srv.name = some c →
        service_is_running st srv = .ok (c.status == "running")) ∧
    (∀ c, st.containers.lookup srv.name = some c → c.status ≠ "running" →
        service_is_running st srv = .ok false) := by
  unfold service_is_running
  rw [containersGet_eval st srv.name hd]
  refine ⟨fun h => by simp [h], fun c h => by simp [h], fun c h hs => by simp [h, hs]⟩

/-- Witness for C4: a running container reports true, an exited one false,
and a missing one raises the raw NotFound. -/
theorem C4_witness :
    service_is_running stOne ⟨"svc", 29593⟩ = .ok true ∧
    service_is_running stEmpty ⟨"svc", 29593⟩ = .error (.docker .notFound) :=
  ⟨(C4_is_running_spec stOne ⟨"svc", 29593⟩ rfl).2.1 c0 rfl,
   (C4_is_running_spec stEmpty ⟨"svc", 29593⟩ rfl).1 rfl⟩

/-- C6 counterexample: `start_service` and `stop_service` on a handle whose
container does not exist raise the raw runtime NotFound error, not the
domain error ServiceNotFound — service.py lines 184-185 and 198-199 call
containers.get with no exception handler. -/
theorem C6_counterexample :
    stEmpty.containers.lookup "svc" = none ∧
    start_service stEmpty ⟨"svc", 29593⟩ = .error (.docker .notFound) ∧
    stop_service stEmpty ⟨"svc", 29593⟩ = .error (.docker .notFound) ∧
    start_service stEmpty ⟨"svc", 29593⟩ ≠ .error .serviceNotFound ∧
    stop_service stEmpty ⟨"svc", 29593⟩ ≠ .error .serviceNotFound := by
  refine ⟨rfl, rfl, rfl, fun h => ?_, fun h => ?_⟩
  · rw [show start_service stEmpty ⟨"svc", 29593⟩
          = .error (.docker .notFound) from rfl] at h
    simp at h
  · rw [show stop_service stEmpty ⟨"svc", 29593⟩
          = .error (.docker .notFound) from rfl] at h
    simp at h

/-- C6 (amended): for a handle whose container does not exist,
`start_service` and `stop_service` raise the raw runtime NotFound error
rather than translating it to ServiceNotFound; only destroy/get/from_dict
perform that translation. -/
theorem C6_start_stop_missing (st : DockerState) (srv : ManagedService)
    (hd : st.daemonError = none)
    (h : st.containers.lookup srv.name = none) :
    start_service st srv = .error (.docker .notFound) ∧
    stop_service st srv = .error (.docker .notFound) := by
  constructor
  · unfold start_service
    rw [containersGet_eval st srv.name hd, h]
  · unfold stop_service
    rw [containersGet_eval st srv.name hd, h]

/-- Witness for C6 (amended) at the empty runtime. -/
theorem C6_witness :
    start_service stEmpty ⟨"gone", 1⟩ = .error (.docker .notFound) ∧
    stop_service stEmpty ⟨"gone", 1⟩ = .error (.docker .notFound) :=
  C6_start_stop_missing stEmpty ⟨"gone", 1⟩ rfl rfl

/-- C10: `service_to_dict` is a pure function of the handle's stored name
and port: its type takes no runtime state, so it cannot contact or change
the runtime; it succeeds on every handle — including a stale one whose
container no longer exists — and returns exactly the two-entry mapping
built verbatim from the stored fields, which depend on nothing else. -/
theorem C10_to_dict_pure (srv : ManagedService) :
    service_to_dict srv = ⟨srv.name, srv.port⟩ ∧
    (∀ st : DockerState, st.containers.lookup srv.name = none →
        service_to_dict srv = ⟨srv.name, srv.port⟩) ∧
    (∀ srv2 : ManagedService, srv2.name = srv.name → srv2.port = srv.port →
        service_to_dict srv2 = service_to_dict srv) := by
  refine ⟨rfl, fun _ _ => rfl, fun srv2 h1 h2 => ?_⟩
  unfold service_to_dict
  rw [h1, h2]

/-- Witness for C10: a stale handle (no container in the empty runtime)
still serialises verbatim. -/
theorem C10_witness :
    service_to_dict ⟨"svc", 29593⟩ = ⟨"svc", 29593⟩ :=
  (C10_to_dict_pure ⟨"svc", 29593⟩).2.1 stEmpty rfl

/-- C2: serialisation round-trips: for a handle whose container exists,
from_dict (to_dict srv) succeeds with the identical name and port;
from_dict is exactly get_service on the dict's fields; and it raises
ServiceNotFound exactly when no container with the dict's name exists. -/
theorem C2_serialisation_round_trip (st : DockerState) (srv : ManagedService)
    (d : ServiceDict) (hd : st.daemonError = none) :
    ((st.containers.lookup srv.name).isSome →
        service_from_dict st (service_to_dict srv) = .ok ⟨srv.name, srv.port⟩) ∧
    service_from_dict st d = get_service st d.name d.port ∧
    (service_from_dict st d = .error .serviceNotFound ↔
        st.containers.lookup d.name = none) := by
  refine ⟨?_, rfl, ?_⟩
  · intro h
    unfold service_from_dict service_to_dict
    rw [get_service_eval st srv.name srv.port hd]
    simp [h]
  · unfold service_from_dict
    rw [get_service_eval st d.name d.port hd]
    cases hl : st.containers.lookup d.name <;> simp

/-- Witness for C2: the round-trip on the existing "svc", and failure of
from_dict on an absent name. -/
theorem C2_witness :
    service_from_dict stOne (service_to_dict ⟨"svc", 29593⟩) =
      .ok ⟨"svc", 29593⟩ ∧
    service_from_dict stEmpty ⟨"nope", 1⟩ = .error .serviceNotFound :=
  ⟨(C2_serialisation_round_trip stOne ⟨"svc", 29593⟩ ⟨"svc", 29593⟩ rfl).1 rfl,
   (C2_serialisation_round_trip stEmpty ⟨"svc", 29593⟩ ⟨"nope", 1⟩
      rfl).2.2.mpr rfl⟩

/-- C3: `create_service` classifies launch failures: an existing container
with the same name yields ServiceAlreadyExists regardless of port and
image; a bound host port (with the name free) yields PortNotAvailable
regardless of name; any runtime failure whose explanation matches none of
the classified substrings propagates unwrapped. -/
theorem C3_create_error_classification (st : DockerState) (n : String)
    (p : Nat) (img : String) (u pw : Option String) :
    (st.daemonError = none → (st.containers.lookup n).isSome →
        create_service st n p img u pw = .error .serviceAlreadyExists) ∧
    (st.daemonError = none → st.containers.lookup n = none →
        st.boundPorts.contains p = true →
        create_service st n p img u pw = .error .portNotAvailable) ∧
    (∀ msg, st.daemonError = some msg →
        occursIn "address already in use" msg = false →
        occursIn "port is already allocated" msg = false →
        occursIn "Conflict. The container name" msg = false →
        create_service st n p img u pw = .error (.docker (.apiError msg))) :=
  ⟨fun hd h => create_service_conflict st n p img u pw hd h,
   fun hd h hp => create_service_port_busy st n p img u pw hd h hp,
   fun msg hd h1 h2 h3 => create_service_daemon st n p img u pw msg hd h1 h2 h3⟩

/-- Witness for C3: name conflict at a different port and image, port
conflict under a different name, and an unclassified daemon failure
propagating unwrapped. -/
theorem C3_witness :
    create_service stOne "svc" 1 "other-image" none none =
      .error .serviceAlreadyExists ∧
    create_service stOne "other" 29593 "other-image" none none =
      .error .portNotAvailable ∧
    create_service stDown "svc" 1 "img" none none =
      .error (.docker (.apiError "server error")) :=
  ⟨(C3_create_error_classification stOne "svc" 1 "other-image" none none).1
      rfl rfl,
   (C3_create_error_classification stOne "other" 29593 "other-image" none
      none).2.1 rfl rfl rfl,
   (C3_create_error_classification stDown "svc" 1 "img" none none).2.2
      "server error" rfl (by decide) (by decide) (by decide)⟩

/-- C8: `destroy_service` raises ServiceNotFound when no container with the
handle's name exists; when it exists, destroy stops and removes it, so a
subsequent `service_exists` on the name returns false. -/
theorem C8_destroy_service_spec (st : DockerState) (srv : ManagedService)
    (hd : st.daemonError = none) :
    (st.containers.lookup srv.name = none →
        destroy_service st srv = .error .serviceNotFound) ∧
    (∀ st2, destroy_service st srv = .ok st2 →
        service_exists st2 srv.name = .ok false) := by
  constructor
  · intro h
    unfold destroy_service
    rw [containersGet_eval st srv.name hd, h]
  · intro st2 h
    unfold destroy_service at h
    rw [containersGet_eval st srv.name hd] at h
    cases hl : st.containers.lookup srv.name with
    | none => rw [hl] at h; exact Except.noConfusion h
    | some c =>
      rw [hl] at h
      have h2 : st2 = containerRemove (containerStop st srv.name) srv.name := by
        simpa using h.symm
      subst h2
      have hd2 : (containerRemove (containerStop st srv.name)
          srv.name).daemonError = none := hd
      rw [service_exists_eval _ srv.name hd2]
      rw [show (containerRemove (containerStop st srv.name)
            srv.name).containers
          = ((containerStop st srv.name).containers).filter
              (fun p => p.1 ≠ srv.name) from rfl]
      rw [lookup_filter_ne]
      rfl

/-- Witness for C8: destroying the existing "svc" leaves a runtime where the
name no longer exists, and destroying a missing one fails. -/
theorem C8_witness :
    destroy_service stEmpty ⟨"svc", 29593⟩ = .error .serviceNotFound ∧
    service_exists (containerRemove (containerStop stOne "svc") "svc") "svc" =
      .ok false :=
  ⟨(C8_destroy_service_spec stEmpty ⟨"svc", 29593⟩ rfl).1 rfl,
   (C8_destroy_service_spec stOne ⟨"svc", 29593⟩ rfl).2
      (containerRemove (containerStop stOne "svc") "svc") rfl⟩

theorem create_service_daemon_any (st : DockerState) (n : String) (p : Nat)
    (img : String) (u pw : Option String) (msg : String)
    (hd : st.daemonError = some msg) :
    create_service st n p img u pw = .error .portNotAvailable ∨
    create_service st n p img u pw = .error .serviceAlreadyExists ∨
    create_service st n p img u pw = .error (.docker (.apiError msg)) := by
  unfold create_service containersRun
  rw [hd]
  by_cases h1 : occursIn "address already in use" msg = true
  · left; simp [h1]
  · by_cases h2 : occursIn "port is already allocated" msg = true
    · left; simp [h1, h2]
    · by_cases h3 : occursIn "Conflict. The container name" msg = true
      · right; left; simp [h1, h2, h3]
      · right; right; simp [h1, h2, h3]

theorem create_service_ok_inv (st : DockerState) (n : String) (p : Nat)
    (img : String) (u pw : Option String) (st2 : DockerState)
    (srv : ManagedService)
    (h : create_service st n p img u pw = .ok (st2, srv)) :
    st.daemonError = none ∧ st.containers.lookup n = none ∧
    st.boundPorts.contains p = false ∧
    st2 = ⟨(n, ⟨"running", p, img, buildEnvironment p u pw⟩)
             :: st.containers,
           p :: st.boundPorts, none⟩ ∧
    srv = ⟨n, p⟩ := by
  cases hd : st.daemonError with
  | some msg =>
    exfalso
    rcases create_service_daemon_any st n p img u pw msg hd with
      he | he | he <;> rw [he] at h <;> exact Except.noConfusion h
  | none =>
    cases hl : st.containers.lookup n with
    | some c =>
      exfalso
      rw [create_service_conflict st n p img u pw hd (by simp [hl])] at h
      exact Except.noConfusion h
    | none =>
      cases hb : st.boundPorts.contains p with
      | true =>
        exfalso
        rw [create_service_port_busy st n p img u pw hd hl hb] at h
        exact Except.noConfusion h
      | false =>
        rw [create_service_ok st n p img u pw hd hl hb] at h
        simp only [Except.ok.injEq, Prod.mk.injEq] at h
        refine ⟨rfl, rfl, rfl, h.1.symm.trans (by rw [hd]), h.2.symm⟩

/-- C5 counterexample: a supplied but EMPTY password still puts
CERISE_PASSWORD into the container environment — service.py lines 44-45
normalise an empty user_name to None, but lines 49-50 apply no such
normalisation to the password. -/
theorem C5_counterexample :
    ("CERISE_PASSWORD", "") ∈ buildEnvironment 29593 none (some "") ∧
    create_service stEmpty "svc" 29593 "mdstudio/cerise" none (some "") =
      .ok (⟨[("svc", ⟨"running", 29593, "mdstudio/cerise",
              [("CERISE_STORE_LOCATION_CLIENT",
                "http://localhost:29593/files"),
               ("CERISE_PASSWORD", "")]⟩)], [29593], none⟩,
           ⟨"svc", 29593⟩) :=
  ⟨by decide, rfl⟩

/-- C5 (amended): the created container's environment always holds
CERISE_STORE_LOCATION_CLIENT for the requested port; CERISE_USERNAME is set
exactly when a user name is supplied and non-empty; CERISE_PASSWORD is set
exactly when a password is supplied, including an empty one. -/
theorem C5_create_environment (st : DockerState) (n : String) (p : Nat)
    (img : String) (u pw : Option String) :
    (buildEnvironment p u pw).lookup "CERISE_STORE_LOCATION_CLIENT" =
        some ("http://localhost:" ++ toString p ++ "/files") ∧
    (buildEnvironment p u pw).lookup "CERISE_USERNAME" =
        (if u = some "" then none else u) ∧
    (buildEnvironment p u pw).lookup "CERISE_PASSWORD" = pw ∧
    (∀ st2 srv, create_service st n p img u pw = .ok (st2, srv) →
        st2.containers.lookup n =
          some ⟨"running", p, img, buildEnvironment p u pw⟩) := by
  refine ⟨?_, ?_, ?_, ?_⟩
  · unfold buildEnvironment
    rcases u with _ | uu
    · rcases pw with _ | pp <;> simp [List.lookup]
    · by_cases hu : uu = "" <;> rcases pw with _ | pp <;>
        simp [hu, List.lookup]
  · unfold buildEnvironment
    rcases u with _ | uu
    · rcases pw with _ | pp <;> simp [List.lookup]
    · by_cases hu : uu = "" <;> rcases pw with _ | pp <;>
        simp [hu, List.lookup]
  · unfold buildEnvironment
    rcases u with _ | uu
    · rcases pw with _ | pp <;> simp [List.lookup]
    · by_cases hu : uu = "" <;> rcases pw with _ | pp <;>
        simp [hu, List.lookup]
  · intro st2 srv h
    obtain ⟨-, -, -, hst2, -⟩ :=
      create_service_ok_inv st n p img u pw st2 srv h
    subst hst2
    simp [List.lookup]

/-- Witness for C5 (amended) on concrete credentials. -/
theorem C5_witness :
    (buildEnvironment 29593 (some "alice") (some "secret")).lookup
        "CERISE_USERNAME" = some "alice" ∧
    (buildEnvironment 29593 (some "") none).lookup "CERISE_USERNAME" =
        none ∧
    (buildEnvironment 29593 none (some "secret")).lookup "CERISE_PASSWORD" =
        some "secret" ∧
    (buildEnvironment 29593 none none).lookup
        "CERISE_STORE_LOCATION_CLIENT" = some "http://localhost:29593/files" := by
  refine ⟨?_, ?_, ?_, ?_⟩
  · have h := (C5_create_environment stEmpty "svc" 29593 "img" (some "alice")
      (some "secret")).2.1
    simpa using h
  · have h := (C5_create_environment stEmpty "svc" 29593 "img" (some "")
      none).2.1
    simpa using h
  · exact (C5_create_environment stEmpty "svc" 29593 "img" none
      (some "secret")).2.2.1
  · have h := (C5_create_environment stEmpty "svc" 29593 "img" none none).1
    exact h.trans (by rfl)

/-- C1: `require_service` is an idempotent create-or-get: when a container
with the name already exists it returns a handle to that same container
without raising ServiceAlreadyExists; it never surfaces
ServiceAlreadyExists; any other error from create (PortNotAvailable in
particular) propagates unchanged; and a successful require is idempotent —
repeating it returns the same handle over an unchanged runtime. -/
theorem C1_require_create_or_get (st : DockerState) (n : String) (p : Nat)
    (img : String) (u pw : Option String) (hd : st.daemonError = none) :
    ((st.containers.lookup n).isSome →
        require_service st n p img u pw = .ok (st, ⟨n, p⟩)) ∧
    require_service st n p img u pw ≠ .error .serviceAlreadyExists ∧
    (∀ e, e ≠ PyError.serviceAlreadyExists →
        create_service st n p img u pw = .error e →
        require_service st n p img u pw = .error e) ∧
    (∀ st2 srv, require_service st n p img u pw = .ok (st2, srv) →
        require_service st2 n p img u pw = .ok (st2, srv)) := by
  refine ⟨require_service_of_exists st n p img u pw hd, ?_, ?_, ?_⟩
  · cases hl : st.containers.lookup n with
    | some c =>
      rw [require_service_of_exists st n p img u pw hd (by simp [hl])]
      simp
    | none =>
      cases hb : st.boundPorts.contains p with
      | true =>
        unfold require_service
        rw [create_service_port_busy st n p img u pw hd hl hb]
        simp
      | false =>
        unfold require_service
        rw [create_service_ok st n p img u pw hd hl hb]
        simp
  · intro e he hc
    unfold require_service
    rw [hc]
    cases e with
    | serviceAlreadyExists => exact absurd rfl he
    | serviceNotFound => rfl
    | portNotAvailable => rfl
    | docker e2 => rfl
  · intro st2 srv h
    cases hl : st.containers.lookup n with
    | some c =>
      rw [require_service_of_exists st n p img u pw hd (by simp [hl])] at h
      simp only [Except.ok.injEq, Prod.mk.injEq] at h
      obtain ⟨h1, h2⟩ := h
      subst h1
      subst h2
      exact require_service_of_exists st n p img u pw hd (by simp [hl])
    | none =>
      cases hb : st.boundPorts.contains p with
      | true =>
        rw [show require_service st n p img u pw
              = .error .portNotAvailable by
            unfold require_service
            rw [create_service_port_busy st n p img u pw hd hl hb]] at h
        exact Except.noConfusion h
      | false =>
        unfold require_service at h
        rw [create_service_ok st n p img u pw hd hl hb] at h
        simp only [Except.ok.injEq, Prod.mk.injEq] at h
        obtain ⟨h1, h2⟩ := h
        subst h1
        subst h2
        exact require_service_of_exists _ n p img u pw hd
          (by simp [List.lookup])

/-- Witness for C1: require over an existing "svc" returns the same
container's handle without ServiceAlreadyExists, and a port conflict from
create propagates unchanged through require. -/
theorem C1_witness :
    require_service stOne "svc" 29593 "mdstudio/cerise" none none =
      .ok (stOne, ⟨"svc", 29593⟩) ∧
    require_service stOne "other" 29593 "mdstudio/cerise" none none =
      .error .portNotAvailable :=
  ⟨(C1_require_create_or_get stOne "svc" 29593 "mdstudio/cerise" none none
      rfl).1 rfl,
   (C1_require_create_or_get stOne "other" 29593 "mdstudio/cerise" none none
      rfl).2.2.1 .portNotAvailable (by decide) rfl⟩

end CeriseManager
